import Mathlib

/-!
# Verification of the todo-service resilience layer and business operations

Shallow embedding of the TypeScript sources:

* `src/infrastructure/resilience.ts` — `withRetry` (exponential backoff with
  jitter) and the circuit-breaker composition used by the service layer;
* `src/services/todoService.ts` — the CRUD operations over the `todos` table,
  the `mapRow` projection, and the CloudEvents publishers they invoke;
* `src/resolvers/todoResolver.ts` — the GraphQL mutation resolvers with their
  validation / not-found / technical-failure handling;
* `src/utils/validation.ts` — the Zod schemas `CreateTodoInputSchema` and
  `UpdateTodoInputSchema` and `validateInput`.

JavaScript numbers are modelled as `ℚ` (delays, jitter), JS errors as a record
of an optional `code` and a `message`.  Asynchrony is irrelevant to the claims:
every wrapped operation is modelled by the sequence of outcomes the environment
would hand to successive attempts.
-/

/-- A JavaScript error value as the retry layer sees it: an optional `code`
property (e.g. `'ETIMEDOUT'`) and a `message`. -/
structure JsError where
  code : Option String
  message : String
deriving DecidableEq, Repr

/-- Outcome of one invocation of the wrapped zero-argument operation. -/
inductive AttemptResult (α : Type) where
  | ok (v : α)
  | err (e : JsError)
deriving DecidableEq, Repr

/-- `resilience.ts` line 32–34: an error is retryable iff its `code` is
`ECONNRESET`, `ETIMEDOUT` or `ECONNREFUSED`. -/
def isRetryable (e : JsError) : Bool :=
  e.code == some "ECONNRESET" || e.code == some "ETIMEDOUT" ||
    e.code == some "ECONNREFUSED"

/-- The error thrown by the final `throw new Error('Max retries reached')`
fall-through of `withRetry` (a plain `Error` has no `code` property). -/
def maxRetriesError : JsError := ⟨none, "Max retries reached"⟩

/-- Observable trace of one `withRetry` call: the value returned or error
thrown, how many times the wrapped operation was invoked, and the list of
backoff delays (in milliseconds, as rationals) slept between attempts. -/
structure RetryTrace (α : Type) where
  result : Except JsError α
  attempts : Nat
  delays : List ℚ
deriving Repr

/-- The `for (let attempt = 0; attempt < maxRetries; attempt++)` loop of
`withRetry` (`resilience.ts` lines 27–52), unrolled on the number of remaining
iterations.  `env a` is the outcome the wrapped operation produces when invoked
as attempt `a` (0-based); `jitter a` is the `Math.random() * 1000` draw of that
iteration.  When no iterations remain the loop falls through to
`throw new Error('Max retries reached')` without invoking the operation. -/
def withRetryFrom (env : Nat → AttemptResult α) (jitter : Nat → ℚ) (baseDelay : ℚ) :
    Nat → Nat → RetryTrace α
  | _attempt, 0 => ⟨.error maxRetriesError, 0, []⟩
  | attempt, remaining + 1 =>
    match env attempt with
    | .ok v => ⟨.ok v, 1, []⟩
    | .err e =>
      -- `isLastAttempt = attempt === maxRetries - 1` holds iff this is the
      -- final remaining iteration.
      if remaining == 0 || !(isRetryable e) then
        ⟨.error e, 1, []⟩
      else
        let delay := baseDelay * 2 ^ attempt + jitter attempt
        let t := withRetryFrom env jitter baseDelay (attempt + 1) remaining
        ⟨t.result, t.attempts + 1, delay :: t.delays⟩

/-- `withRetry(fn, maxRetries, baseDelay)` from `resilience.ts`:
run the loop starting at attempt 0 with `maxRetries` iterations available. -/
def withRetry (env : Nat → AttemptResult α) (jitter : Nat → ℚ) (baseDelay : ℚ)
    (maxRetries : Nat) : RetryTrace α :=
  withRetryFrom env jitter baseDelay 0 maxRetries

/-- The delays produced by `len` consecutive failing attempts starting at
attempt index `start`: attempt `start + i` sleeps
`baseDelay * 2 ^ (start + i) + jitter (start + i)`. -/
def expDelays (jitter : Nat → ℚ) (baseDelay : ℚ) (start len : Nat) : List ℚ :=
  (List.range len).map (fun i => baseDelay * 2 ^ (start + i) + jitter (start + i))

theorem expDelays_zero (jitter : Nat → ℚ) (b : ℚ) (start : Nat) :
    expDelays jitter b start 0 = [] := rfl

theorem expDelays_succ (jitter : Nat → ℚ) (b : ℚ) (start len : Nat) :
    expDelays jitter b start (len + 1) =
      (b * 2 ^ start + jitter start) :: expDelays jitter b (start + 1) len := by
  unfold expDelays
  rw [List.range_succ_eq_map, List.map_cons, List.map_map]
  congr 1
  apply List.map_congr_left
  intro i _
  have h : start + (i + 1) = start + 1 + i := by omega
  simp [Function.comp_def, Nat.succ_eq_add_one, h]

theorem expDelays_length (jitter : Nat → ℚ) (b : ℚ) (start len : Nat) :
    (expDelays jitter b start len).length = len := by
  simp [expDelays]

theorem expDelays_getElem? (jitter : Nat → ℚ) (b : ℚ) (start len j : Nat)
    (hj : j < len) :
    (expDelays jitter b start len)[j]? =
      some (b * 2 ^ (start + j) + jitter (start + j)) := by
  simp [expDelays, List.getElem?_map, List.getElem?_range, hj]

/-- One loop iteration, successful attempt. -/
theorem withRetryFrom_step_ok (env : Nat → AttemptResult α) (jitter : Nat → ℚ)
    (b : ℚ) (attempt remaining : Nat) (v : α) (h : env attempt = .ok v) :
    withRetryFrom env jitter b attempt (remaining + 1) = ⟨.ok v, 1, []⟩ := by
  conv_lhs => rw [withRetryFrom]
  rw [h]

/-- One loop iteration, failing attempt that is the last one or whose error is
non-retryable: the error is re-thrown at once. -/
theorem withRetryFrom_step_throw (env : Nat → AttemptResult α) (jitter : Nat → ℚ)
    (b : ℚ) (attempt remaining : Nat) (e : JsError) (h : env attempt = .err e)
    (hcond : remaining = 0 ∨ isRetryable e = false) :
    withRetryFrom env jitter b attempt (remaining + 1) = ⟨.error e, 1, []⟩ := by
  conv_lhs => rw [withRetryFrom]
  rw [h]
  rcases hcond with hc | hc <;> simp [hc]

/-- One loop iteration, retryable failure with iterations to spare: sleep the
backoff delay and continue with the next attempt. -/
theorem withRetryFrom_step_retry (env : Nat → AttemptResult α) (jitter : Nat → ℚ)
    (b : ℚ) (attempt remaining : Nat) (e : JsError) (h : env attempt = .err e)
    (hre : isRetryable e = true) (hr : remaining ≠ 0) :
    withRetryFrom env jitter b attempt (remaining + 1) =
      ⟨(withRetryFrom env jitter b (attempt + 1) remaining).result,
        (withRetryFrom env jitter b (attempt + 1) remaining).attempts + 1,
        (b * 2 ^ attempt + jitter attempt) ::
          (withRetryFrom env jitter b (attempt + 1) remaining).delays⟩ := by
  conv_lhs => rw [withRetryFrom]
  rw [h]
  simp [hre, hr]

/-- Success after `n` retryable failures, with at least `n + 1` iterations
available: the loop performs `n + 1` attempts and sleeps the exponential
backoff delay after each of the `n` failures. -/
theorem withRetryFrom_ok (env : Nat → AttemptResult α) (jitter : Nat → ℚ)
    (b : ℚ) (v : α) :
    ∀ (n start remaining : Nat), n < remaining →
    (∀ i, i < n → ∃ e, env (start + i) = .err e ∧ isRetryable e = true) →
    env (start + n) = .ok v →
    withRetryFrom env jitter b start remaining =
      ⟨.ok v, n + 1, expDelays jitter b start n⟩ := by
  intro n
  induction n with
  | zero =>
    intro start remaining hrem _ hok
    obtain ⟨r, rfl⟩ : ∃ r, remaining = r + 1 := ⟨remaining - 1, by omega⟩
    simp only [Nat.add_zero] at hok
    rw [withRetryFrom_step_ok env jitter b start r v hok]
    simp [expDelays_zero]
  | succ n ih =>
    intro start remaining hrem herr hok
    obtain ⟨r, rfl⟩ : ∃ r, remaining = r + 1 := ⟨remaining - 1, by omega⟩
    obtain ⟨e, he, hre⟩ := herr 0 (Nat.succ_pos n)
    simp only [Nat.add_zero] at he
    have hrec := ih (start + 1) r (by omega)
      (fun i hi => by
        obtain ⟨e', he', hre'⟩ := herr (i + 1) (by omega)
        exact ⟨e', by rwa [show start + (i + 1) = start + 1 + i from by omega] at he',
          hre'⟩)
      (by rwa [show start + (n + 1) = start + 1 + n from by omega] at hok)
    rw [withRetryFrom_step_retry env jitter b start r e he hre (by omega), hrec]
    simp [expDelays_succ]

/-- All `k + 1` available iterations fail retryably: the loop performs exactly
`k + 1` attempts, throws the error of the last attempt (index `start + k`),
and sleeps after each failure except the last. -/
theorem withRetryFrom_exhaust (env : Nat → AttemptResult α) (jitter : Nat → ℚ)
    (b : ℚ) (e : Nat → JsError) :
    ∀ (k start : Nat),
    (∀ i, i < k + 1 → env (start + i) = .err (e (start + i)) ∧
      isRetryable (e (start + i)) = true) →
    withRetryFrom env jitter b start (k + 1) =
      ⟨.error (e (start + k)), k + 1, expDelays jitter b start k⟩ := by
  intro k
  induction k with
  | zero =>
    intro start herr
    obtain ⟨he, _⟩ := herr 0 Nat.one_pos
    simp only [Nat.add_zero] at he
    rw [withRetryFrom_step_throw env jitter b start 0 _ he (Or.inl rfl)]
    simp [expDelays_zero]
  | succ k ih =>
    intro start herr
    obtain ⟨he, hre⟩ := herr 0 (Nat.succ_pos _)
    simp only [Nat.add_zero] at he hre
    have hrec := ih (start + 1)
      (fun i hi => by
        have h2 := herr (i + 1) (by omega)
        rwa [show start + (i + 1) = start + 1 + i from by omega] at h2)
    have hidx : start + 1 + k = start + (k + 1) := by omega
    rw [hidx] at hrec
    rw [withRetryFrom_step_retry env jitter b start (k + 1) _ he hre (by omega), hrec]
    simp [expDelays_succ]

/-- Bound on every recorded backoff delay: with a non-negative base delay and
jitter draws in `[0, 1000)`, the delay slept before attempt `j + 2` lies in
`[b * 2 ^ j, b * 2 ^ j + 1000)` and is never negative. -/
theorem expDelays_bound (jitter : Nat → ℚ) (b : ℚ) (hb : 0 ≤ b)
    (hj : ∀ i, 0 ≤ jitter i ∧ jitter i < 1000) (len j : Nat) (d : ℚ)
    (h : (expDelays jitter b 0 len)[j]? = some d) :
    b * 2 ^ j ≤ d ∧ d < b * 2 ^ j + 1000 ∧ 0 ≤ d := by
  have hjlen : j < len := by
    by_contra hc
    rw [List.getElem?_eq_none (by rw [expDelays_length]; omega)] at h
    exact Option.noConfusion h
  rw [expDelays_getElem? jitter b 0 len j hjlen] at h
  have hd : b * 2 ^ (0 + j) + jitter (0 + j) = d := Option.some.inj h
  simp only [Nat.zero_add] at hd
  obtain ⟨hj0, hj1⟩ := hj j
  have hpow : (0 : ℚ) ≤ b * 2 ^ j := by positivity
  constructor
  · linarith
  constructor
  · linarith
  · linarith

/-- A persistence error with a retryable code, used as concrete test input. -/
def etimedoutError : JsError := ⟨some "ETIMEDOUT", "timeout"⟩

/-- A non-retryable error, used as concrete test input. -/
def boomError : JsError := ⟨some "EFAIL", "boom"⟩

/-- An operation that fails on every invocation with a non-retryable error. -/
def envAlwaysBoom : Nat → AttemptResult Nat := fun _ => .err boomError

/-- A jitter sequence that always draws 0. -/
def jitterZero : Nat → ℚ := fun _ => 0

/-- C1 counterexample: calling withRetry with maxRetries = 0 around an
operation that would fail with error "boom" never invokes the operation at
all (0 attempts, not 1) and throws the loop's generic fall-through error
"Max retries reached" instead of propagating the operation's own failure. -/
theorem C1_counterexample :
    withRetry envAlwaysBoom jitterZero 1000 0 =
      ⟨.error maxRetriesError, 0, []⟩ ∧
    (withRetry envAlwaysBoom jitterZero 1000 0).attempts ≠ 1 ∧
    (withRetry envAlwaysBoom jitterZero 1000 0).result ≠ .error boomError := by
  refine ⟨rfl, ?_, ?_⟩
  · intro h
    simp [withRetry, withRetryFrom] at h
  · intro h
    simp [withRetry, withRetryFrom, maxRetriesError, boomError] at h

/-- C1 (amended): for maxRetries = 0 the retry loop body never runs, so the
wrapped operation is never attempted; withRetry throws a generic
"Max retries reached" error immediately, with no backoff delay. -/
theorem C1_amended (α : Type) (env : Nat → AttemptResult α) (jitter : Nat → ℚ)
    (baseDelay : ℚ) :
    withRetry env jitter baseDelay 0 = ⟨.error maxRetriesError, 0, []⟩ := rfl

/-- C3: for withRetry with maxRetries = m at least 1 and base delay b at least
0, if the operation fails n consecutive times with retryable errors before
succeeding, the operation is attempted exactly min (n + 1) m times; the delay
slept before attempt k (1-indexed from the second attempt, i.e. entry k - 1 of
the delay list) lies in the half-open interval
[b * 2 ^ (k - 1), b * 2 ^ (k - 1) + 1000), and no delay is ever negative. -/
theorem C3_retry_attempt_count_and_delays (α : Type) (m n : Nat) (b : ℚ)
    (jitter : Nat → ℚ) (env : Nat → AttemptResult α) (e : Nat → JsError) (v : α)
    (hm : 1 ≤ m) (hb : 0 ≤ b) (hj : ∀ i, 0 ≤ jitter i ∧ jitter i < 1000)
    (herr : ∀ i, i < n → env i = .err (e i) ∧ isRetryable (e i) = true)
    (hok : env n = .ok v) :
    (withRetry env jitter b m).attempts = min (n + 1) m ∧
    (withRetry env jitter b m).delays.length = min (n + 1) m - 1 ∧
    ∀ j d, (withRetry env jitter b m).delays[j]? = some d →
      b * 2 ^ j ≤ d ∧ d < b * 2 ^ j + 1000 ∧ 0 ≤ d := by
  rcases Nat.lt_or_ge n m with hnm | hnm
  · have htrace : withRetry env jitter b m = ⟨.ok v, n + 1, expDelays jitter b 0 n⟩ := by
      unfold withRetry
      exact withRetryFrom_ok env jitter b v n 0 m hnm
        (fun i hi => ⟨e i, by simpa using (herr i hi).1, (herr i hi).2⟩)
        (by simpa using hok)
    rw [htrace]
    refine ⟨by show n + 1 = min (n + 1) m; omega,
      by show (expDelays jitter b 0 n).length = min (n + 1) m - 1;
         rw [expDelays_length]; omega, ?_⟩
    intro j d hd
    exact expDelays_bound jitter b hb hj n j d hd
  · obtain ⟨k, rfl⟩ : ∃ k, m = k + 1 := ⟨m - 1, by omega⟩
    have htrace : withRetry env jitter b (k + 1) =
        ⟨.error (e k), k + 1, expDelays jitter b 0 k⟩ := by
      unfold withRetry
      have := withRetryFrom_exhaust env jitter b e k 0
        (fun i hi => by simpa using herr i (by omega))
      simpa using this
    rw [htrace]
    refine ⟨by show k + 1 = min (n + 1) (k + 1); omega,
      by show (expDelays jitter b 0 k).length = min (n + 1) (k + 1) - 1;
         rw [expDelays_length]; omega, ?_⟩
    intro j d hd
    exact expDelays_bound jitter b hb hj k j d hd

/-- An operation that fails once with a timeout, then succeeds. -/
def envOneTimeoutThenOk : Nat → AttemptResult Nat
  | 0 => .err etimedoutError
  | _ + 1 => .ok 42

/-- A jitter sequence that always draws one half. -/
def jitterHalf : Nat → ℚ := fun _ => 1 / 2

/-- C3 witness: one retryable timeout followed by success, maxRetries = 3 and
baseDelay = 5, gives exactly min 2 3 = 2 attempts and in-range delays. -/
theorem C3_witness :
    (withRetry envOneTimeoutThenOk jitterHalf 5 3).attempts = min (1 + 1) 3 ∧
    (withRetry envOneTimeoutThenOk jitterHalf 5 3).delays.length = min (1 + 1) 3 - 1 ∧
    ∀ (j : Nat) (d : ℚ),
      (withRetry envOneTimeoutThenOk jitterHalf 5 3).delays[j]? = some d →
      5 * 2 ^ j ≤ d ∧ d < 5 * 2 ^ j + 1000 ∧ 0 ≤ d :=
  C3_retry_attempt_count_and_delays Nat 3 1 5 jitterHalf envOneTimeoutThenOk
    (fun _ => etimedoutError) 42
    (by norm_num) (by norm_num)
    (fun i => by constructor <;> norm_num [jitterHalf])
    (fun i hi => by
      interval_cases i
      exact ⟨rfl, by decide⟩)
    rfl

/-- C4: when the first attempt fails with a non-retryable error (code not in
the allow-list), withRetry performs exactly one attempt, sleeps no delay, and
propagates that error immediately. -/
theorem C4_nonretryable_single_attempt (α : Type) (m : Nat) (b : ℚ)
    (jitter : Nat → ℚ) (env : Nat → AttemptResult α) (e : JsError)
    (hm : 1 ≤ m) (he : env 0 = .err e) (hre : isRetryable e = false) :
    withRetry env jitter b m = ⟨.error e, 1, []⟩ := by
  obtain ⟨r, rfl⟩ : ∃ r, m = r + 1 := ⟨m - 1, by omega⟩
  unfold withRetry
  exact withRetryFrom_step_throw env jitter b 0 r e he (Or.inr hre)

/-- C4 witness: an operation failing with the non-retryable error "boom" under
maxRetries = 3 is attempted once and its error is rethrown with no delay. -/
theorem C4_witness :
    withRetry envAlwaysBoom jitterZero 1000 3 = ⟨.error boomError, 1, []⟩ :=
  C4_nonretryable_single_attempt Nat 3 1000 jitterZero envAlwaysBoom boomError
    (by norm_num) rfl (by decide)

/-- The three circuit-breaker phases of spec section 4.2. -/
inductive BreakerPhase where
  | closed
  | opened
  | halfOpen
deriving DecidableEq, Repr

/-- State of the database circuit breaker: current phase, the rolling window
of recorded outcomes as (time, isFailure) pairs, the time the breaker last
transitioned to opened, and the total number of fire invocations (executed
or fail-fast). -/
structure BreakerState where
  phase : BreakerPhase
  window : List (ℚ × Bool)
  openedAt : ℚ
  fires : Nat
deriving DecidableEq, Repr

/-- dbBreakerOptions.errorThresholdPercentage (resilience.ts): 50. -/
def errorThresholdPercentage : Nat := 50

/-- dbBreakerOptions.resetTimeout (resilience.ts): 30000 ms. -/
def resetTimeout : ℚ := 30000

/-- dbBreakerOptions.rollingCountTimeout (resilience.ts): 10000 ms.  The
division of the window into 10 buckets only coarsens expiry granularity and
is abstracted to exact timestamps. -/
def rollingCountTimeout : ℚ := 10000

/-- The distinct circuit-open error an open breaker rejects with; its code is
not in the retryable allow-list. -/
def breakerOpenError : JsError := ⟨some "EOPENBREAKER", "Breaker is open"⟩

namespace CircuitBreaker

/-- Modelled from the spec: the circuit breaker itself is the external
opossum library (not under src/), so dbBreaker.fire follows spec section 4.2.
In the closed state the operation executes and its outcome is recorded into
the rolling window; if the failure percentage over the in-window outcomes
meets or exceeds the threshold, the breaker transitions to opened.  In the
opened state calls fail immediately with the circuit-open error, without
invoking the wrapped operation, until resetTimeout has elapsed; then the
breaker is half-open and the next call runs as a trial whose success closes
the breaker (resetting the window) and whose failure re-opens it (restarting
the reset timeout).  `now` is the time of the call and `outcome` what the
wrapped persistence operation would produce if it were invoked. -/
def fire (st : BreakerState) (now : ℚ) (outcome : AttemptResult α) :
    AttemptResult α × BreakerState :=
  let phase :=
    if st.phase = .opened ∧ now - st.openedAt ≥ resetTimeout then
      BreakerPhase.halfOpen
    else st.phase
  if phase = .closed then
    let isFailure :=
      match outcome with
      | .ok _ => false
      | .err _ => true
    let window := (now, isFailure) :: st.window
    let recent := window.filter (fun p => now - p.1 < rollingCountTimeout)
    let failures := (recent.filter (fun p => p.2)).length
    if 0 < recent.length ∧
        errorThresholdPercentage * recent.length ≤ 100 * failures then
      (outcome, ⟨.opened, window, now, st.fires + 1⟩)
    else
      (outcome, ⟨.closed, window, st.openedAt, st.fires + 1⟩)
  else if phase = .opened then
    (.err breakerOpenError, { st with fires := st.fires + 1 })
  else
    match outcome with
    | .ok v => (.ok v, ⟨.closed, [], st.openedAt, st.fires + 1⟩)
    | .err e => (.err e, ⟨.opened, st.window, now, st.fires + 1⟩)

end CircuitBreaker

/-- The composition used by every TodoService operation
(`withRetry(() => dbBreaker.fire(query, params))`, todoService.ts): the
retry loop of `withRetryFrom`, where each attempt invokes dbBreaker.fire
exactly once, threading the breaker state and the clock.  The clock advances
by each backoff delay; the persistence call itself is treated as
instantaneous, which only makes elapsed times smaller and they stay far
below the 30000 ms reset timeout anyway. -/
def withRetryBreakerFrom (pEnv : Nat → AttemptResult α) (jitter : Nat → ℚ)
    (baseDelay : ℚ) :
    Nat → BreakerState → ℚ → Nat → RetryTrace α × BreakerState
  | _attempt, st, _now, 0 => (⟨.error maxRetriesError, 0, []⟩, st)
  | attempt, st, now, remaining + 1 =>
    match CircuitBreaker.fire st now (pEnv attempt) with
    | (.ok v, st') => (⟨.ok v, 1, []⟩, st')
    | (.err e, st') =>
      if remaining == 0 || !(isRetryable e) then (⟨.error e, 1, []⟩, st')
      else
        let delay := baseDelay * 2 ^ attempt + jitter attempt
        let p := withRetryBreakerFrom pEnv jitter baseDelay (attempt + 1) st'
          (now + delay) remaining
        (⟨p.1.result, p.1.attempts + 1, delay :: p.1.delays⟩, p.2)

/-- `withRetry(() => dbBreaker.fire(...))`: retry policy outer, breaker
inner, starting at attempt 0 at time startTime. -/
def withRetryBreaker (pEnv : Nat → AttemptResult α) (jitter : Nat → ℚ)
    (baseDelay : ℚ) (st : BreakerState) (startTime : ℚ) (maxRetries : Nat) :
    RetryTrace α × BreakerState :=
  withRetryBreakerFrom pEnv jitter baseDelay 0 st startTime maxRetries

/-- One composed iteration, failing attempt that is the last one or whose
error is non-retryable: the error is re-thrown at once. -/
theorem withRetryBreakerFrom_step_throw (pEnv : Nat → AttemptResult α)
    (jitter : Nat → ℚ) (b : ℚ) (attempt : Nat) (st : BreakerState) (now : ℚ)
    (remaining : Nat) (e : JsError) (st' : BreakerState)
    (h : CircuitBreaker.fire st now (pEnv attempt) = (.err e, st'))
    (hcond : remaining = 0 ∨ isRetryable e = false) :
    withRetryBreakerFrom pEnv jitter b attempt st now (remaining + 1) =
      (⟨.error e, 1, []⟩, st') := by
  conv_lhs => rw [withRetryBreakerFrom]
  rw [h]
  rcases hcond with hc | hc <;> simp [hc]

/-- One composed iteration, retryable failure with iterations to spare:
sleep the backoff delay and continue with the next attempt at the advanced
clock and updated breaker state. -/
theorem withRetryBreakerFrom_step_retry (pEnv : Nat → AttemptResult α)
    (jitter : Nat → ℚ) (b : ℚ) (attempt : Nat) (st : BreakerState) (now : ℚ)
    (remaining : Nat) (e : JsError) (st' : BreakerState)
    (h : CircuitBreaker.fire st now (pEnv attempt) = (.err e, st'))
    (hre : isRetryable e = true) (hr : remaining ≠ 0) :
    withRetryBreakerFrom pEnv jitter b attempt st now (remaining + 1) =
      (⟨(withRetryBreakerFrom pEnv jitter b (attempt + 1) st'
          (now + (b * 2 ^ attempt + jitter attempt)) remaining).1.result,
        (withRetryBreakerFrom pEnv jitter b (attempt + 1) st'
          (now + (b * 2 ^ attempt + jitter attempt)) remaining).1.attempts + 1,
        (b * 2 ^ attempt + jitter attempt) ::
          (withRetryBreakerFrom pEnv jitter b (attempt + 1) st'
            (now + (b * 2 ^ attempt + jitter attempt)) remaining).1.delays⟩,
        (withRetryBreakerFrom pEnv jitter b (attempt + 1) st'
          (now + (b * 2 ^ attempt + jitter attempt)) remaining).2) := by
  conv_lhs => rw [withRetryBreakerFrom]
  rw [h]
  simp [hre, hr]

/-- The full trace of the composed wrapper under the defaults (maxRetries 3,
baseDelay 1000) against an always-timing-out persistence call, from a fresh
closed breaker: attempt 1 executes, records the failure and opens the
breaker (1 failure of 1 in-window outcome is 100 percent, at or above the 50
percent threshold); after one backoff sleep, attempt 2 arrives well inside
the 30000 ms reset timeout, fails fast with the circuit-open error, which is
non-retryable, so the loop stops after 2 attempts with 1 recorded outcome. -/
theorem breakerTimeoutRun (α : Type) (pEnv : Nat → AttemptResult α)
    (jitter : Nat → ℚ) (t0 w0 : ℚ) (f0 : Nat)
    (hp : ∀ i, pEnv i = .err etimedoutError)
    (hj0 : 0 ≤ jitter 0) (hj1 : jitter 0 < 1000) :
    withRetryBreaker pEnv jitter 1000 ⟨.closed, [], w0, f0⟩ t0 3 =
      (⟨.error breakerOpenError, 2, [1000 * 2 ^ 0 + jitter 0]⟩,
        ⟨.opened, [(t0, true)], t0, f0 + 1 + 1⟩) := by
  have hfire1 : CircuitBreaker.fire (⟨.closed, [], w0, f0⟩ : BreakerState) t0
      (pEnv 0) = (.err etimedoutError, ⟨.opened, [(t0, true)], t0, f0 + 1⟩) := by
    rw [hp 0]
    norm_num [CircuitBreaker.fire, rollingCountTimeout,
      errorThresholdPercentage, sub_self]
    intro h
    exact absurd h (by decide)
  have hlt : ¬ (resetTimeout ≤ 1000 + jitter 0) := by
    simp only [resetTimeout]
    intro hge
    linarith
  have hfire2 : CircuitBreaker.fire
      (⟨.opened, [(t0, true)], t0, f0 + 1⟩ : BreakerState)
      (t0 + (1000 * 2 ^ 0 + jitter 0)) (pEnv 1) =
      (.err breakerOpenError, ⟨.opened, [(t0, true)], t0, f0 + 1 + 1⟩) := by
    rw [hp 1]
    simp [CircuitBreaker.fire, hlt]
  have hinner : withRetryBreakerFrom pEnv jitter 1000 1
      ⟨.opened, [(t0, true)], t0, f0 + 1⟩ (t0 + (1000 * 2 ^ 0 + jitter 0)) 2 =
      (⟨.error breakerOpenError, 1, []⟩,
        ⟨.opened, [(t0, true)], t0, f0 + 1 + 1⟩) :=
    withRetryBreakerFrom_step_throw pEnv jitter 1000 1 _ _ 1 breakerOpenError _
      hfire2 (Or.inr (by decide))
  have houter := withRetryBreakerFrom_step_retry pEnv jitter 1000 0
    ⟨.closed, [], w0, f0⟩ t0 2 etimedoutError ⟨.opened, [(t0, true)], t0, f0 + 1⟩
    hfire1 (by decide) (by omega)
  unfold withRetryBreaker
  exact houter.trans (by rw [hinner])

/-- A persistence collaborator that times out on every invocation. -/
def pEnvAllTimeouts : Nat → AttemptResult Nat := fun _ => .err etimedoutError

/-- C5 counterexample: with the configured defaults (50 percent threshold,
30000 ms reset timeout, maxRetries 3, baseDelay 1000) and a persistence call
that times out on every invocation, a run from a fresh breaker performs only
2 attempts — not 3 — records only 1 outcome in the rolling window — not 3 —
and surfaces the circuit-open error: the first recorded timeout already tips
the threshold and opens the breaker, and the second attempt fails fast with
the non-retryable circuit-open error. -/
theorem C5_counterexample :
    (withRetryBreaker pEnvAllTimeouts jitterZero 1000 ⟨.closed, [], 0, 0⟩ 0 3).1.attempts
      = 2 ∧
    (withRetryBreaker pEnvAllTimeouts jitterZero 1000 ⟨.closed, [], 0, 0⟩ 0 3).1.attempts
      ≠ 3 ∧
    (withRetryBreaker pEnvAllTimeouts jitterZero 1000 ⟨.closed, [], 0, 0⟩ 0 3).2.window.length
      = 1 ∧
    (withRetryBreaker pEnvAllTimeouts jitterZero 1000 ⟨.closed, [], 0, 0⟩ 0 3).2.window.length
      ≠ 3 ∧
    (withRetryBreaker pEnvAllTimeouts jitterZero 1000 ⟨.closed, [], 0, 0⟩ 0 3).1.result
      = .error breakerOpenError := by
  have h := breakerTimeoutRun Nat pEnvAllTimeouts jitterZero 0 0 0
    (fun _ => rfl) (le_refl 0) (by norm_num [jitterZero])
  refine ⟨by rw [h], by rw [h]; decide, by rw [h]; rfl, by rw [h]; decide,
    by rw [h]⟩

/-- C5 (amended): the retry policy is the outer layer and the circuit
breaker the inner one, and each retry attempt fires the breaker-wrapped
persistence call exactly once; but under the configured defaults a fresh
breaker opens on the very first recorded timeout (1 of 1 in-window failures
is at or above the 50 percent threshold), so the second attempt fails fast
on the open breaker without executing or recording, its circuit-open error
is non-retryable, and the caller receives that technical failure after
exactly 2 attempts with exactly 1 recorded outcome in the rolling window —
neither 3 nor 5. -/
theorem C5_open_breaker_accounting (α : Type) (pEnv : Nat → AttemptResult α)
    (jitter : Nat → ℚ) (t0 w0 : ℚ) (f0 : Nat)
    (hp : ∀ i, pEnv i = .err etimedoutError)
    (hj : ∀ i, 0 ≤ jitter i ∧ jitter i < 1000) :
    (withRetryBreaker pEnv jitter 1000 ⟨.closed, [], w0, f0⟩ t0 3).1.result =
      .error breakerOpenError ∧
    (withRetryBreaker pEnv jitter 1000 ⟨.closed, [], w0, f0⟩ t0 3).1.attempts = 2 ∧
    (withRetryBreaker pEnv jitter 1000 ⟨.closed, [], w0, f0⟩ t0 3).1.delays =
      [1000 * 2 ^ 0 + jitter 0] ∧
    (withRetryBreaker pEnv jitter 1000 ⟨.closed, [], w0, f0⟩ t0 3).2.window =
      [(t0, true)] ∧
    (withRetryBreaker pEnv jitter 1000 ⟨.closed, [], w0, f0⟩ t0 3).2.fires =
      f0 + 2 ∧
    (withRetryBreaker pEnv jitter 1000 ⟨.closed, [], w0, f0⟩ t0 3).2.phase =
      .opened := by
  have h := breakerTimeoutRun α pEnv jitter t0 w0 f0 hp (hj 0).1 (hj 0).2
  exact ⟨by rw [h], by rw [h], by rw [h], by rw [h], by rw [h], by rw [h]⟩

/-- C5 witness: the amended accounting at concrete inputs — fresh breaker,
zero jitter, start time 0. -/
theorem C5_witness :
    (withRetryBreaker pEnvAllTimeouts jitterZero 1000 ⟨.closed, [], 0, 0⟩ 0 3).1.result
      = .error breakerOpenError ∧
    (withRetryBreaker pEnvAllTimeouts jitterZero 1000 ⟨.closed, [], 0, 0⟩ 0 3).1.attempts
      = 2 ∧
    (withRetryBreaker pEnvAllTimeouts jitterZero 1000 ⟨.closed, [], 0, 0⟩ 0 3).1.delays
      = [1000 * 2 ^ 0 + jitterZero 0] ∧
    (withRetryBreaker pEnvAllTimeouts jitterZero 1000 ⟨.closed, [], 0, 0⟩ 0 3).2.window
      = [((0 : ℚ), true)] ∧
    (withRetryBreaker pEnvAllTimeouts jitterZero 1000 ⟨.closed, [], 0, 0⟩ 0 3).2.fires
      = 0 + 2 ∧
    (withRetryBreaker pEnvAllTimeouts jitterZero 1000 ⟨.closed, [], 0, 0⟩ 0 3).2.phase
      = .opened :=
  C5_open_breaker_accounting Nat pEnvAllTimeouts jitterZero 0 0 0 (fun _ => rfl)
    (fun i => ⟨le_refl 0, by norm_num [jitterZero]⟩)


/-- A row of the todos table as returned by the persistence collaborator
(columns inserted/updated by todoService.ts; id is the primary key). -/
structure Row where
  id : String
  title : String
  description : Option String
  status : String
  dueDate : Option String
  createdAt : String
  updatedAt : String
  completedAt : Option String
deriving DecidableEq, Repr

/-- The Todo interface of todoService.ts, including the deprecated notes
field kept for backward compatibility. -/
structure Todo where
  id : String
  title : String
  description : Option String
  status : String
  dueDate : Option String
  createdAt : String
  updatedAt : String
  completedAt : Option String
  notes : Option String
deriving DecidableEq, Repr

/-- The todos table; the persistence collaborator's row ordering is abstracted
(no claim concerns ORDER BY). -/
abbrev DB := List Row

/-- CloudEvents published by todoEvents.ts, reduced to their data payloads
(envelope fields id/source/specversion/time are fresh metadata). -/
inductive Event where
  | created (todoId title status createdAt : String)
  | updated (todoId title status updatedAt : String)
  | completed (todoId title : String) (completedAt : Option String)
  | deleted (todoId title : String)
deriving DecidableEq, Repr

/-- publishTodoCreated: data is todoId, title, status, createdAt. -/
def publishTodoCreated (t : Todo) : Event := .created t.id t.title t.status t.createdAt

/-- publishTodoUpdated: data is todoId, title, status, updatedAt. -/
def publishTodoUpdated (t : Todo) : Event := .updated t.id t.title t.status t.updatedAt

/-- publishTodoCompleted: data is todoId, title, completedAt. -/
def publishTodoCompleted (t : Todo) : Event := .completed t.id t.title t.completedAt

/-- publishTodoDeleted: data is todoId and title only. -/
def publishTodoDeleted (t : Todo) : Event := .deleted t.id t.title

/-- Result of one service/resolver operation on the success path of the
persistence layer: the returned value, the table afterwards, the events
published, and how many SELECT statements (reads) and
INSERT/UPDATE/DELETE statements (writes) were executed. -/
structure OpResult (α : Type) where
  result : α
  db : DB
  events : List Event
  reads : Nat
  writes : Nat
deriving Repr

/-- SQL COALESCE of a bind parameter with a nullable column. -/
def coalesce (x : Option α) (cur : Option α) : Option α :=
  match x with
  | some v => some v
  | none => cur

/-- GraphQL CreateTodoInput (title required, rest optional). -/
structure CreateTodoInput where
  title : String
  description : Option String
  dueDate : Option String
deriving DecidableEq, Repr

/-- GraphQL UpdateTodoInput (all fields optional). -/
structure UpdateTodoInput where
  title : Option String
  description : Option String
  status : Option String
  dueDate : Option String
deriving DecidableEq, Repr

namespace TodoService

/-- TodoService.mapRow: project a row to the API Todo, aliasing the
deprecated notes field to the description column. -/
def mapRow (row : Row) : Todo :=
  { id := row.id
    title := row.title
    description := row.description
    status := row.status
    dueDate := row.dueDate
    createdAt := row.createdAt
    updatedAt := row.updatedAt
    completedAt := row.completedAt
    notes := row.description }

/-- TodoService.findById: SELECT the first row with the given id, map it. -/
def findById (db : DB) (id : String) : Option Todo :=
  (db.find? (fun r => r.id == id)).map mapRow

/-- TodoService.findAll: SELECT all rows, optionally filtered by status,
each mapped through mapRow.  One read, no writes, no events. -/
def findAll (db : DB) (status : Option String) : OpResult (List Todo) :=
  match status with
  | some s => ⟨(db.filter (fun r => r.status == s)).map mapRow, db, [], 1, 0⟩
  | none => ⟨db.map mapRow, db, [], 1, 0⟩

/-- TodoService.create: INSERT a fresh row with status PENDING and
createdAt = updatedAt = now, return the mapped RETURNING row, publish one
created event. -/
def create (db : DB) (input : CreateTodoInput) (genId now : String) : OpResult Todo :=
  let row : Row :=
    ⟨genId, input.title, input.description, "PENDING", input.dueDate, now, now, none⟩
  let todo := mapRow row
  ⟨todo, db ++ [row], [publishTodoCreated todo], 0, 1⟩

/-- TodoService.update: read the row by id (findById); if absent return null
with no write and no event; otherwise UPDATE with COALESCE semantics and
updatedAt = now, return the mapped RETURNING row, publish one updated
event. -/
def update (db : DB) (id : String) (input : UpdateTodoInput) (now : String) :
    OpResult (Option Todo) :=
  match db.find? (fun r => r.id == id) with
  | none => ⟨none, db, [], 1, 0⟩
  | some r =>
    let updatedRow : Row :=
      { r with
        title := input.title.getD r.title
        description := coalesce input.description r.description
        status := input.status.getD r.status
        dueDate := coalesce input.dueDate r.dueDate
        updatedAt := now }
    let todo := mapRow updatedRow
    ⟨some todo, db.map (fun row => if row.id == id then updatedRow else row),
      [publishTodoUpdated todo], 1, 1⟩

/-- TodoService.complete: read the row by id; if absent return null;
otherwise UPDATE status to COMPLETED with completedAt = updatedAt = now,
return the mapped RETURNING row, publish one completed event. -/
def complete (db : DB) (id : String) (now : String) : OpResult (Option Todo) :=
  match db.find? (fun r => r.id == id) with
  | none => ⟨none, db, [], 1, 0⟩
  | some r =>
    let updatedRow : Row :=
      { r with status := "COMPLETED", completedAt := some now, updatedAt := now }
    let todo := mapRow updatedRow
    ⟨some todo, db.map (fun row => if row.id == id then updatedRow else row),
      [publishTodoCompleted todo], 1, 1⟩

/-- TodoService.delete: read the row by id; if absent return null with no
DELETE and no event; otherwise DELETE the row and return the snapshot that
was read before the deletion (it is not re-read), publishing one deleted
event built from that snapshot. -/
def delete (db : DB) (id : String) : OpResult (Option Todo) :=
  match db.find? (fun r => r.id == id) with
  | none => ⟨none, db, [], 1, 0⟩
  | some r =>
    let existing := mapRow r
    ⟨some existing, db.filter (fun row => !(row.id == id)),
      [publishTodoDeleted existing], 1, 1⟩

end TodoService

/-- One entry of the fields array of a ValidationError:
field path joined with dots, plus the human-readable message. -/
structure FieldError where
  field : String
  message : String
deriving DecidableEq, Repr

/-- The ValidationError object built by validateInput in validation.ts. -/
structure ValidationError where
  message : String
  code : String
  fields : List FieldError
deriving DecidableEq, Repr

/-- The Zod regex for dueDate: exactly four digits, a dash, two digits, a
dash, two digits. -/
def isDateFormat (s : String) : Bool :=
  match s.toList with
  | [a, b, c, d, '-', e, f, '-', g, h] =>
    a.isDigit && b.isDigit && c.isDigit && d.isDigit &&
      e.isDigit && f.isDigit && g.isDigit && h.isDigit
  | _ => false

/-- Issues produced by the Zod checks on a title string:
min(3) then max(200).  (String length is modelled on Lean strings.) -/
def checkTitle (t : String) : List FieldError :=
  (if t.length < 3 then [⟨"title", "Title must be at least 3 characters"⟩] else []) ++
  (if 200 < t.length then [⟨"title", "Title must not exceed 200 characters"⟩] else [])

/-- Title checks for the optional title of UpdateTodoInput. -/
def checkOptTitle (t : Option String) : List FieldError :=
  match t with
  | none => []
  | some s => checkTitle s

/-- Issues for the optional description: max(1000). -/
def checkDescription (d : Option String) : List FieldError :=
  match d with
  | none => []
  | some s =>
    if 1000 < s.length then
      [⟨"description", "Description must not exceed 1000 characters"⟩]
    else []

/-- Issues for the optional status: must be one of the four enum values. -/
def checkStatus (st : Option String) : List FieldError :=
  match st with
  | none => []
  | some s =>
    if s == "PENDING" || s == "IN_PROGRESS" || s == "COMPLETED" || s == "ARCHIVED" then
      []
    else
      [⟨"status", "Status must be one of: PENDING, IN_PROGRESS, COMPLETED, ARCHIVED"⟩]

/-- Issues for the optional dueDate: the YYYY-MM-DD regex. -/
def checkDueDate (d : Option String) : List FieldError :=
  match d with
  | none => []
  | some s => if isDateFormat s then [] else [⟨"dueDate", "Must be YYYY-MM-DD format"⟩]

/-- All issues of CreateTodoInputSchema.safeParse, in field-declaration
order: title, description, dueDate. -/
def createTodoInputIssues (input : CreateTodoInput) : List FieldError :=
  checkTitle input.title ++ checkDescription input.description ++
    checkDueDate input.dueDate

/-- All issues of UpdateTodoInputSchema.safeParse, in field-declaration
order: title, description, status, dueDate. -/
def updateTodoInputIssues (input : UpdateTodoInput) : List FieldError :=
  checkOptTitle input.title ++ checkDescription input.description ++
    checkStatus input.status ++ checkDueDate input.dueDate

/-- validateInput(CreateTodoInputSchema, data): the parsed data on success,
or the ValidationError object with message, code and one entry per issue. -/
def validateCreateInput (input : CreateTodoInput) :
    Except ValidationError CreateTodoInput :=
  let issues := createTodoInputIssues input
  if issues.isEmpty then .ok input
  else .error ⟨"Input validation failed", "VALIDATION_ERROR", issues⟩

/-- validateInput(UpdateTodoInputSchema, data). -/
def validateUpdateInput (input : UpdateTodoInput) :
    Except ValidationError UpdateTodoInput :=
  let issues := updateTodoInputIssues input
  if issues.isEmpty then .ok input
  else .error ⟨"Input validation failed", "VALIDATION_ERROR", issues⟩

/-- Outcome of the createTodo mutation resolver on the persistence success
path: either the ValidationError union member or CreateTodoSuccess. -/
inductive CreateTodoOutcome where
  | validationError (ve : ValidationError)
  | success (todo : Todo)
deriving DecidableEq, Repr

/-- todoResolver.ts createTodo (persistence succeeding): validate the input;
on failure return the ValidationError with no service call at all; otherwise
run todoService.create and wrap the todo in the success member. -/
def createTodo (db : DB) (input : CreateTodoInput) (genId now : String) :
    OpResult CreateTodoOutcome :=
  match validateCreateInput input with
  | .error ve => ⟨.validationError ve, db, [], 0, 0⟩
  | .ok validated =>
    let r := TodoService.create db validated genId now
    ⟨.success r.result, r.db, r.events, r.reads, r.writes⟩

/-- Outcome of the updateTodo mutation resolver on the persistence success
path: ValidationError, TodoNotFoundError, or the updated todo. -/
inductive UpdateTodoOutcome where
  | validationError (ve : ValidationError)
  | notFound (message code todoId : String)
  | updated (todo : Todo)
deriving DecidableEq, Repr

/-- todoResolver.ts updateTodo (persistence succeeding): validate the input;
on failure return the ValidationError; otherwise run todoService.update and
map null to the TodoNotFoundError object carrying the requested id. -/
def updateTodo (db : DB) (id : String) (input : UpdateTodoInput) (now : String) :
    OpResult UpdateTodoOutcome :=
  match validateUpdateInput input with
  | .error ve => ⟨.validationError ve, db, [], 0, 0⟩
  | .ok validated =>
    let r := TodoService.update db id validated now
    match r.result with
    | none => ⟨.notFound "Todo not found" "TODO_NOT_FOUND" id, r.db, r.events,
        r.reads, r.writes⟩
    | some todo => ⟨.updated todo, r.db, r.events, r.reads, r.writes⟩

/-- The extensions object attached to a thrown GraphQLError by the resolvers:
a code and the underlying error message (and nothing else). -/
structure GraphQLErrorExtensions where
  code : String
  originalError : String
deriving DecidableEq, Repr

/-- A GraphQLError as thrown by the resolvers' catch blocks. -/
structure ThrownGraphQLError where
  message : String
  extensions : GraphQLErrorExtensions
deriving DecidableEq, Repr

/-- Full response surface of createTodo including the technical-failure
channel of its catch block. -/
inductive CreateTodoResponse where
  | validationError (ve : ValidationError)
  | success (todo : Todo)
  | thrown (err : ThrownGraphQLError)
deriving DecidableEq, Repr

/-- todoResolver.ts createTodo with the todoService.create outcome made
explicit: when the persistence call rejects with an error, the catch block
throws a GraphQLError with message 'Failed to create todo' and extensions
code INTERNAL_ERROR plus originalError set to the underlying message. -/
def createTodoResolver (input : CreateTodoInput) (svc : Except JsError Todo) :
    CreateTodoResponse :=
  match validateCreateInput input with
  | .error ve => .validationError ve
  | .ok _ =>
    match svc with
    | .ok todo => .success todo
    | .error e => .thrown ⟨"Failed to create todo", ⟨"INTERNAL_ERROR", e.message⟩⟩

/-- Full response surface of updateTodo including the technical-failure
channel of its catch block. -/
inductive UpdateTodoResponse where
  | validationError (ve : ValidationError)
  | notFound (message code todoId : String)
  | updated (todo : Todo)
  | thrown (err : ThrownGraphQLError)
deriving DecidableEq, Repr

/-- todoResolver.ts updateTodo with the todoService.update outcome made
explicit: a rejected persistence call is caught and rethrown as a
GraphQLError with extensions code INTERNAL_ERROR plus originalError set to
the underlying message. -/
def updateTodoResolver (id : String) (input : UpdateTodoInput)
    (svc : Except JsError (Option Todo)) : UpdateTodoResponse :=
  match validateUpdateInput input with
  | .error ve => .validationError ve
  | .ok _ =>
    match svc with
    | .error e => .thrown ⟨"Failed to update todo", ⟨"INTERNAL_ERROR", e.message⟩⟩
    | .ok none => .notFound "Todo not found" "TODO_NOT_FOUND" id
    | .ok (some todo) => .updated todo

/-- A concrete stored row used as test input. -/
def sampleRow : Row :=
  ⟨"id1", "T1", some "desc", "PENDING", none, "t0", "t0", none⟩

/-- A concrete valid create input. -/
def cinputValid : CreateTodoInput := ⟨"Valid title", none, none⟩

/-- A concrete (trivially valid) update input with no fields set. -/
def uinputEmpty : UpdateTodoInput := ⟨none, none, none, none⟩

/-- A concrete technical persistence failure with its internal error text. -/
def dbFailure : JsError := ⟨some "ETIMEDOUT", "connect ETIMEDOUT 127.0.0.1:5432"⟩

/-- C2 counterexample: when todoService.create rejects with the timeout error
whose message is 'connect ETIMEDOUT 127.0.0.1:5432', the resolver throws a
GraphQLError whose extensions carry that underlying internal message verbatim
as originalError — the thrown error does expose internal error text, and its
extensions consist of code and originalError only, with no correlation
identifier. -/
theorem C2_counterexample :
    createTodoResolver cinputValid (.error dbFailure) =
      .thrown ⟨"Failed to create todo", ⟨"INTERNAL_ERROR", dbFailure.message⟩⟩ ∧
    dbFailure.message = "connect ETIMEDOUT 127.0.0.1:5432" :=
  ⟨rfl, rfl⟩

/-- C2 (amended): when a mutating operation's persistence call fails with a
technical failure, the resolver throws a GraphQLError whose extensions carry
the coarse code INTERNAL_ERROR together with the underlying error message in
originalError; no correlation identifier is attached to the thrown error
(the correlation id goes to the logging collaborator only). -/
theorem C2_technical_failure_shape (input : CreateTodoInput) (id : String)
    (uinput : UpdateTodoInput) (e : JsError)
    (hv : validateCreateInput input = .ok input)
    (hvu : validateUpdateInput uinput = .ok uinput) :
    createTodoResolver input (.error e) =
      .thrown ⟨"Failed to create todo", ⟨"INTERNAL_ERROR", e.message⟩⟩ ∧
    updateTodoResolver id uinput (.error e) =
      .thrown ⟨"Failed to update todo", ⟨"INTERNAL_ERROR", e.message⟩⟩ := by
  constructor
  · simp [createTodoResolver, hv]
  · simp [updateTodoResolver, hvu]

/-- C2 witness: the amended shape at a concrete input and failure. -/
theorem C2_witness :
    createTodoResolver cinputValid (.error dbFailure) =
      .thrown ⟨"Failed to create todo", ⟨"INTERNAL_ERROR", dbFailure.message⟩⟩ ∧
    updateTodoResolver "id1" uinputEmpty (.error dbFailure) =
      .thrown ⟨"Failed to update todo", ⟨"INTERNAL_ERROR", dbFailure.message⟩⟩ :=
  C2_technical_failure_shape cinputValid "id1" uinputEmpty dbFailure rfl rfl

/-- C6: createTodo with a title shorter than 3 characters returns the
ValidationError outcome whose fields list leads with the title entry and its
human-readable message; the table is untouched, no event is published, and no
persistence statement of any kind is executed. -/
theorem C6_short_title_returns_validation_failure (db : DB)
    (input : CreateTodoInput) (genId now : String)
    (h : input.title.length < 3) :
    ∃ rest, createTodo db input genId now =
      ⟨.validationError ⟨"Input validation failed", "VALIDATION_ERROR",
        ⟨"title", "Title must be at least 3 characters"⟩ :: rest⟩,
        db, [], 0, 0⟩ := by
  refine ⟨checkDescription input.description ++ checkDueDate input.dueDate, ?_⟩
  have h200 : ¬ (200 < input.title.length) := by omega
  simp [createTodo, validateCreateInput, createTodoInputIssues, checkTitle, h, h200]

/-- C6 witness: the two-character title 'ab' is rejected with a title field
entry and zero persistence activity. -/
theorem C6_witness :
    ∃ rest, createTodo [] ⟨"ab", none, none⟩ "gid" "t1" =
      ⟨.validationError ⟨"Input validation failed", "VALIDATION_ERROR",
        ⟨"title", "Title must be at least 3 characters"⟩ :: rest⟩,
        [], [], 0, 0⟩ :=
  C6_short_title_returns_validation_failure [] ⟨"ab", none, none⟩ "gid" "t1"
    (by decide)

/-- C7: updateTodo with a valid input and an id matching no stored row
returns the TodoNotFoundError outcome carrying that id; the table is
unchanged, no event is published, and exactly one read (the existence
check) and zero writes are executed. -/
theorem C7_update_missing_id_not_found (db : DB) (id : String)
    (input : UpdateTodoInput) (now : String)
    (hv : validateUpdateInput input = .ok input)
    (hmiss : db.find? (fun r => r.id == id) = none) :
    updateTodo db id input now =
      ⟨.notFound "Todo not found" "TODO_NOT_FOUND" id, db, [], 1, 0⟩ := by
  simp [updateTodo, hv, TodoService.update, hmiss]

/-- C7 witness: updating id 'missing' in an empty table. -/
theorem C7_witness :
    updateTodo [] "missing" uinputEmpty "t1" =
      ⟨.notFound "Todo not found" "TODO_NOT_FOUND" "missing", [], [], 1, 0⟩ :=
  C7_update_missing_id_not_found [] "missing" uinputEmpty "t1" rfl rfl

/-- C8: complete on an existing entity returns a todo whose status is
COMPLETED, whose completion time equals the update time stamped by this very
call, and publishes exactly one event, of kind completed. -/
theorem C8_complete_stamps_and_notifies (db : DB) (id now : String) (r : Row)
    (h : db.find? (fun row => row.id == id) = some r) :
    ∃ t, (TodoService.complete db id now).result = some t ∧
      t.status = "COMPLETED" ∧
      t.completedAt = some now ∧
      t.updatedAt = now ∧
      t.completedAt = some t.updatedAt ∧
      (TodoService.complete db id now).events =
        [Event.completed t.id t.title t.completedAt] := by
  refine ⟨TodoService.mapRow
    { r with status := "COMPLETED", completedAt := some now, updatedAt := now },
    ?_, rfl, rfl, rfl, rfl, ?_⟩
  · simp [TodoService.complete, h]
  · simp [TodoService.complete, h, publishTodoCompleted]

/-- C8 witness: completing the sample pending row. -/
theorem C8_witness :
    ∃ t, (TodoService.complete [sampleRow] "id1" "t1").result = some t ∧
      t.status = "COMPLETED" ∧
      t.completedAt = some "t1" ∧
      t.updatedAt = "t1" ∧
      t.completedAt = some t.updatedAt ∧
      (TodoService.complete [sampleRow] "id1" "t1").events =
        [Event.completed t.id t.title t.completedAt] :=
  C8_complete_stamps_and_notifies [sampleRow] "id1" "t1" sampleRow rfl

/-- C9: delete on an existing id returns the snapshot read before the DELETE
(the post-state no longer contains the id, so it cannot have been re-read)
and publishes exactly one deleted event carrying the pre-deletion id and
title; on a missing id it returns null, performs the existence read only (no
DELETE), and publishes nothing. -/
theorem C9_delete_snapshot_and_notification (db : DB) (id : String) :
    (∀ r, db.find? (fun row => row.id == id) = some r →
      TodoService.delete db id =
        ⟨some (TodoService.mapRow r), db.filter (fun row => !(row.id == id)),
          [Event.deleted (TodoService.mapRow r).id (TodoService.mapRow r).title],
          1, 1⟩ ∧
      (TodoService.delete db id).db.find? (fun row => row.id == id) = none) ∧
    (db.find? (fun row => row.id == id) = none →
      TodoService.delete db id = ⟨none, db, [], 1, 0⟩) := by
  constructor
  · intro r h
    constructor
    · simp [TodoService.delete, h, publishTodoDeleted]
    · simp only [TodoService.delete, h]
      rw [List.find?_eq_none]
      intro x hx
      have := List.of_mem_filter hx
      simpa using this
  · intro h
    simp [TodoService.delete, h]

/-- C9 witness: both branches at concrete inputs — deleting the only row, and
deleting from an empty table. -/
theorem C9_witness :
    (TodoService.delete [sampleRow] "id1" =
      ⟨some (TodoService.mapRow sampleRow),
        ([sampleRow] : DB).filter (fun row => !(row.id == "id1")),
        [Event.deleted (TodoService.mapRow sampleRow).id
          (TodoService.mapRow sampleRow).title], 1, 1⟩ ∧
      (TodoService.delete [sampleRow] "id1").db.find?
        (fun row => row.id == "id1") = none) ∧
    TodoService.delete ([] : DB) "id1" = ⟨none, [], [], 1, 0⟩ :=
  ⟨(C9_delete_snapshot_and_notification [sampleRow] "id1").1 sampleRow rfl,
    (C9_delete_snapshot_and_notification [] "id1").2 rfl⟩

/-- Every todo produced by mapRow has notes equal to description. -/
theorem mapRow_notes (row : Row) :
    (TodoService.mapRow row).notes = (TodoService.mapRow row).description := rfl

/-- Members of a mapRow-image list have notes equal to description. -/
theorem mem_map_mapRow_notes (l : List Row) (t : Todo)
    (h : t ∈ l.map TodoService.mapRow) : t.notes = t.description := by
  obtain ⟨row, _, rfl⟩ := List.mem_map.mp h
  exact mapRow_notes row

/-- C10: every Todo returned by any TodoService operation — findAll,
findById, create, update, complete, delete — has its deprecated notes field
equal to its description field, because every returned value passes through
mapRow. -/
theorem C10_notes_equals_description (db : DB) (status : Option String)
    (id : String) (cinput : CreateTodoInput) (uinput : UpdateTodoInput)
    (genId now : String) :
    (∀ t ∈ (TodoService.findAll db status).result, t.notes = t.description) ∧
    (∀ t, TodoService.findById db id = some t → t.notes = t.description) ∧
    ((TodoService.create db cinput genId now).result.notes =
      (TodoService.create db cinput genId now).result.description) ∧
    (∀ t, (TodoService.update db id uinput now).result = some t →
      t.notes = t.description) ∧
    (∀ t, (TodoService.complete db id now).result = some t →
      t.notes = t.description) ∧
    (∀ t, (TodoService.delete db id).result = some t →
      t.notes = t.description) := by
  refine ⟨?_, ?_, rfl, ?_, ?_, ?_⟩
  · intro t ht
    cases status with
    | none => exact mem_map_mapRow_notes db t ht
    | some s =>
      exact mem_map_mapRow_notes (db.filter (fun r => r.status == s)) t ht
  · intro t ht
    obtain ⟨r, _, rfl⟩ := Option.map_eq_some'.mp ht
    exact mapRow_notes r
  · intro t ht
    cases hf : db.find? (fun r => r.id == id) with
    | none => simp [TodoService.update, hf] at ht
    | some r =>
      simp only [TodoService.update, hf, Option.some.injEq] at ht
      subst ht
      exact mapRow_notes _
  · intro t ht
    cases hf : db.find? (fun r => r.id == id) with
    | none => simp [TodoService.complete, hf] at ht
    | some r =>
      simp only [TodoService.complete, hf, Option.some.injEq] at ht
      subst ht
      exact mapRow_notes _
  · intro t ht
    cases hf : db.find? (fun r => r.id == id) with
    | none => simp [TodoService.delete, hf] at ht
    | some r =>
      simp only [TodoService.delete, hf, Option.some.injEq] at ht
      subst ht
      exact mapRow_notes _

/-- C10 witness: the invariant observed on concrete findById and create
results. -/
theorem C10_witness :
    (TodoService.mapRow sampleRow).notes =
      (TodoService.mapRow sampleRow).description ∧
    (TodoService.create [] cinputValid "gid" "t1").result.notes =
      (TodoService.create [] cinputValid "gid" "t1").result.description :=
  ⟨(C10_notes_equals_description [sampleRow] none "id1" cinputValid uinputEmpty
      "gid" "t1").2.1 (TodoService.mapRow sampleRow) rfl,
    (C10_notes_equals_description [] none "id1" cinputValid uinputEmpty
      "gid" "t1").2.2.1⟩
